import Mathlib

/-!
Verification of the payment-to-document matching and linking engine of the
AutomaticPaymentLinking repository.  Python amounts are modelled as exact
rationals (`ℚ`); fallible calls are modelled with `Option`/`Except`; the
remote MoySklad registry and the local subscription store are modelled as
explicit state threaded through the operations.
-/

namespace APL

/-! ## Python call binding

Several claims hinge on whether a Python call site is compatible with the
signature of the callee.  A signature is the ordered list of
positional-or-keyword parameter names (with `self` already bound), each
marked with whether it has a default; none of the functions involved take
`*args` or `**kwargs`.  A plain call binds successfully iff there are no
surplus positional arguments, every keyword names a parameter that was
not already filled positionally, and every parameter without a default
gets bound; otherwise CPython raises `TypeError`. -/

/-! ## Payments and the link write -/

/-! ## Purpose-mask extraction

`WebhookHandler._find_order_by_purpose_mask` runs two regular
expressions over the payment's free-text purpose with
`re.search(..., re.IGNORECASE)`, in order:
`(?:заказ|order|№)\s*(\d+)` first, then `\b(\d{5,})\b`.  The searches
are modelled over `List Char` with exact leftmost-match semantics:
`\d` is modelled as the ASCII digits, `\s` as the ASCII whitespace
characters, word characters (`\w`, for `\b`) as ASCII alphanumerics,
underscore and the Cyrillic block, and case folding over ASCII and
Cyrillic letters — the alphabets the patterns and the data use. -/

/-! ## Webhook subscription manager

`WebhookService.toggle_webhook` together with the enable/disable
operations of webhook_operations.py, modelled as a pure state
transition on the remote MoySklad webhook registry and the local
subscription table, logging the remote calls and local writes made. -/

/-- A sales document (customer order / invoice / shipment) as built by the
per-kind `_to_entity` converters: the fields the matching and allocation
code reads.  `moment` is the document date encoded as an integer key. -/
structure OrderDoc where
  id : String
  name : String
  moment : Int
  sum : ℚ
  payedSum : ℚ
  agentId : String
  metaHref : String
deriving DecidableEq, Repr

/-- `CustomerOrderEntity.get_unpaid_amount`: `max(0, self.sum - self.payed_sum)`. -/
def OrderDoc.getUnpaidAmount (d : OrderDoc) : ℚ :=
  max 0 (d.sum - d.payedSum)

/-- `CustomerOrderEntity.is_fully_paid`: `self.payed_sum >= self.sum`. -/
def OrderDoc.isFullyPaid (d : OrderDoc) : Bool :=
  d.payedSum ≥ d.sum

/-- `CustomerOrderEntity.matches_sum`: `abs(self.sum - payment_sum) <= tolerance`. -/
def OrderDoc.matchesSum (d : OrderDoc) (paymentSum tolerance : ℚ) : Bool :=
  |d.sum - paymentSum| ≤ tolerance

/-- The loop body of `WebhookHandler._link_payment_by_counterparty`
(webhook_handler.py lines 160-190): walk the documents in order, per
document read `unpaid = get_unpaid_amount()`; `continue` when
`unpaid <= 0`; otherwise `linked = min(unpaid, remaining)`, `break` when
`linked <= 0`, else record the link, subtract, and `break` once the
remaining amount is `<= 0`.  Returns the recorded `(document, linked_sum)`
pairs together with the final remaining amount. -/
def allocateLoop (remaining : ℚ) : List OrderDoc → List (OrderDoc × ℚ) × ℚ
  | [] => ([], remaining)
  | d :: ds =>
    let unpaid := d.getUnpaidAmount
    if unpaid ≤ 0 then
      allocateLoop remaining ds
    else
      let linked := min unpaid remaining
      if linked ≤ 0 then
        ([], remaining)
      else if remaining - linked ≤ 0 then
        ([(d, linked)], remaining - linked)
      else
        let rest := allocateLoop (remaining - linked) ds
        ((d, linked) :: rest.1, rest.2)

/-- `WebhookHandler._link_payment_by_counterparty` as a whole: empty
candidate list yields `(None, 0)`; otherwise the loop runs and the method
returns the last linked document and `payment.sum - remaining_sum`. -/
def linkPaymentByCounterparty (paymentSum : ℚ) (documents : List OrderDoc) :
    Option OrderDoc × ℚ :=
  if documents.isEmpty then (none, 0)
  else
    let r := allocateLoop paymentSum documents
    ((r.1.map Prod.fst).getLast?, paymentSum - r.2)

/-- The amounts applied by an allocation. -/
def appliedSum (links : List (OrderDoc × ℚ)) : ℚ :=
  (links.map Prod.snd).sum

/-- The allocation algorithm as claim C2, amended, words it: stop as soon
as the remaining amount is `<= 0` (exact comparison, no tolerance); for
each candidate compute `want = min(outstanding, remaining)`; skip the
candidate when `want <= 0`; otherwise record `(candidate, want)` and
subtract it from the remaining amount. -/
def allocSpecC2 : List OrderDoc → ℚ → List (OrderDoc × ℚ) × ℚ
  | [], remaining => ([], remaining)
  | d :: ds, remaining =>
    if remaining ≤ 0 then ([], remaining)
    else
      let want := min d.getUnpaidAmount remaining
      if want ≤ 0 then allocSpecC2 ds remaining
      else
        let rest := allocSpecC2 ds (remaining - want)
        ((d, want) :: rest.1, rest.2)

/-- Sample order O1 of Scenario B: total 400, nothing paid. -/
def docO1 : OrderDoc :=
  { id := "o1", name := "O1", moment := 1, sum := 400, payedSum := 0,
    agentId := "C2", metaHref := "href-o1" }

/-- Sample order O2 of Scenario B: total 500, nothing paid. -/
def docO2 : OrderDoc :=
  { id := "o2", name := "O2", moment := 2, sum := 500, payedSum := 0,
    agentId := "C2", metaHref := "href-o2" }

/-- An open document with total 100 and nothing paid. -/
def docT1 : OrderDoc :=
  { id := "t1", name := "T1", moment := 1, sum := 100, payedSum := 0,
    agentId := "C9", metaHref := "href-t1" }

/-- An open document with total 50 and nothing paid. -/
def docT2 : OrderDoc :=
  { id := "t2", name := "T2", moment := 2, sum := 50, payedSum := 0,
    agentId := "C9", metaHref := "href-t2" }

/-- A Python function signature: parameter names in order, paired with
whether the parameter has a default value. -/
structure PyFunctionSig where
  params : List (String × Bool)
deriving DecidableEq, Repr

/-- CPython argument binding for a call with `numPositional` positional
arguments followed by the keyword arguments `kwargs`. -/
def bindsOk (sig : PyFunctionSig) (numPositional : Nat)
    (kwargs : List String) : Bool :=
  let names := sig.params.map Prod.fst
  decide (numPositional ≤ names.length) &&
  kwargs.all (fun k => names.contains k) &&
  kwargs.all (fun k => !(names.take numPositional).contains k) &&
  sig.params.all (fun p =>
    p.2 || (names.take numPositional).contains p.1 || kwargs.contains p.1)

/-- Signature of `CustomerOrderClient.search_by_agent_and_sum`
(customerorder_client.py lines 182-187): `agent_id`, `sum_value`,
`tolerance=0.01`. -/
def customerOrderSearchByAgentAndSumSig : PyFunctionSig :=
  ⟨[("agent_id", false), ("sum_value", false), ("tolerance", true)]⟩

/-- Signature of `CustomerOrderClient.search_by_agent`
(customerorder_client.py lines 211-215): `agent_id`, `only_unpaid=True`. -/
def customerOrderSearchByAgentSig : PyFunctionSig :=
  ⟨[("agent_id", false), ("only_unpaid", true)]⟩

/-- Keywords passed by `CustomerOrderService.find_for_payment` to
`search_by_agent_and_sum` when `search_by_sum` is true
(customerorder_service.py lines 65-69). -/
def findForPaymentBySumCallKwargs : List String :=
  ["agent_id", "sum_value", "prioritize_oldest"]

/-- Keywords passed by `CustomerOrderService.find_for_payment` to
`search_by_agent` when `search_by_sum` is false
(customerorder_service.py lines 71-77). -/
def findForPaymentByAgentCallKwargs : List String :=
  ["agent_id", "only_unpaid", "date_from", "limit", "order"]

/-- Signature of `WebhookHandler.__init__` (webhook_handler.py lines
23-29): four required service parameters, no defaults. -/
def webhookHandlerInitSig : PyFunctionSig :=
  ⟨[("paymentin_service", false), ("customerorder_service", false),
    ("invoiceout_service", false), ("demand_service", false)]⟩

/-- One already-linked operation of a payment, in the shape produced by
`PaymentInService._to_entity` (meta href + type, `linkedSum` defaulted
to 0 when absent). -/
structure LinkedOp where
  metaHref : String
  metaType : String
  linkedSum : ℚ
deriving DecidableEq, Repr

/-- An incoming payment as built by `PaymentInService._to_entity`: the
fields the matching and linking code reads. -/
structure PaymentIn where
  id : String
  sum : ℚ
  agentId : String
  paymentPurpose : Option String
  linkedOperations : List LinkedOp
  metaHref : String
deriving DecidableEq, Repr

/-- `PaymentInService._extract_type_from_href`: the second-to-last
segment of the '/'-split href, `"unknown"` when there are fewer than two
segments. -/
def extractTypeFromHref (href : String) : String :=
  match (href.splitOn "/").reverse with
  | _ :: t :: _ => t
  | _ => "unknown"

/-- The operations list written by `PaymentInService.link_to_document`
(paymentin_service.py lines 66-78): re-project every existing linked
operation (meta plus linkedSum), then append the single new allocation
built from the document href and the linked amount. -/
def linkToDocumentOps (payment : PaymentIn) (documentMetaHref : String)
    (linkedSum : ℚ) : List LinkedOp :=
  let operations := payment.linkedOperations.map (fun op =>
    { metaHref := op.metaHref, metaType := op.metaType,
      linkedSum := op.linkedSum })
  operations ++
    [{ metaHref := documentMetaHref,
       metaType := extractTypeFromHref documentMetaHref,
       linkedSum := linkedSum }]

/-- ASCII digit, the model of `\d`. -/
def isDigitChar (c : Char) : Bool := c.isDigit

/-- Whitespace, the model of `\s`. -/
def isSpaceChar (c : Char) : Bool :=
  c = ' ' || c = '\t' || c = '\n' || c = '\r' || c = '\x0b' || c = '\x0c'

/-- Word character, the model of `\w` (used for `\b`). -/
def isWordChar (c : Char) : Bool :=
  c.isAlphanum || c = '_' || (0x400 ≤ c.toNat && c.toNat ≤ 0x4FF)

/-- Case folding for `re.IGNORECASE`: ASCII `A`-`Z` and the Cyrillic
capitals are mapped to their lowercase forms. -/
def lowerChar (c : Char) : Char :=
  if 'A' ≤ c && c ≤ 'Z' then Char.ofNat (c.toNat + 32)
  else if 0x410 ≤ c.toNat && c.toNat ≤ 0x42F then Char.ofNat (c.toNat + 32)
  else c

/-- Match a (lowercase) literal case-insensitively at the head of the
input; return the rest of the input on success. -/
def litMatch : List Char → List Char → Option (List Char)
  | [], s => some s
  | _ :: _, [] => none
  | l :: ls, c :: cs => if lowerChar c = l then litMatch ls cs else none

/-- Try `(?:заказ|order|№)\s*(\d+)` at one position: one of the three
literals (alternation order as written), then greedy whitespace, then a
nonempty greedy digit run, which is the captured group. -/
def matchPurposeKeyAt (s : List Char) : Option (List Char) :=
  let tryLit := fun (lit : List Char) =>
    match litMatch lit s with
    | none => none
    | some rest =>
      let digits := (rest.dropWhile isSpaceChar).takeWhile isDigitChar
      if digits.isEmpty then none else some digits
  match tryLit "заказ".toList with
  | some d => some d
  | none =>
    match tryLit "order".toList with
    | some d => some d
    | none => tryLit "№".toList

/-- `re.search` for the first pattern: leftmost position wins. -/
def searchPurposeKey : List Char → Option (List Char)
  | [] => none
  | c :: cs =>
    match matchPurposeKeyAt (c :: cs) with
    | some d => some d
    | none => searchPurposeKey cs

/-- `re.search` for `\b(\d{5,})\b`: leftmost position with a word
boundary before it, a greedy digit run of length at least 5, and a word
boundary after the run. -/
def searchBareDigitsAux : Bool → List Char → Option (List Char)
  | _, [] => none
  | prevWord, c :: cs =>
    let digits := (c :: cs).takeWhile isDigitChar
    let rest := (c :: cs).drop digits.length
    if !prevWord && decide (5 ≤ digits.length) &&
        (match rest with | [] => true | r :: _ => !isWordChar r) then
      some digits
    else
      searchBareDigitsAux (isWordChar c) cs

/-- `re.search` for the second pattern, starting with no preceding word
character. -/
def searchBareDigits (s : List Char) : Option (List Char) :=
  searchBareDigitsAux false s

/-- The ordered pattern list of `_find_order_by_purpose_mask`. -/
def purposeMatchers : List (List Char → Option (List Char)) :=
  [searchPurposeKey, searchBareDigits]

/-- The pattern loop of `_find_order_by_purpose_mask` (webhook_handler.py
lines 297-307): walk the ordered pattern list; the first pattern that
matches supplies the order number. -/
def extractOrderNumber (purpose : String) : Option String :=
  (purposeMatchers.findSome? (fun f => f purpose.toList)).map
    (fun ds => String.mk ds)

/-- `CustomerOrderService.find_by_name_and_agent` over a modelled remote
order table: the remote query filters on the exact counterparty and the
exact display name, `limit=1` keeps at most the first row, and an empty
result raises `CustomerOrderNotFoundError` (modelled as `none`). -/
def findByNameAndAgent (db : List OrderDoc) (name agentId : String) :
    Option OrderDoc :=
  ((db.filter (fun o => o.agentId = agentId && o.name = name)).take 1).head?

/-- `WebhookHandler._find_order_by_purpose_mask`: a falsy (missing or
empty) purpose yields no match; otherwise extract the order number and
look the document up by exact name and counterparty, with a not-found
result caught and turned into no match. -/
def findOrderByPurposeMask (db : List OrderDoc) (p : PaymentIn) :
    Option OrderDoc :=
  match p.paymentPurpose with
  | none => none
  | some purpose =>
    if purpose = "" then none
    else
      match extractOrderNumber purpose with
      | none => none
      | some n => findByNameAndAgent db n p.agentId

/-- The Scenario C order: display name "12345" for counterparty C3. -/
def orderSc : OrderDoc :=
  { id := "ord-12345", name := "12345", moment := 5, sum := 1500,
    payedSum := 0, agentId := "C3", metaHref := "href-12345" }

/-- The Scenario C payment: purpose text naming order 12345. -/
def paymentSc : PaymentIn :=
  { id := "p1", sum := 1500, agentId := "C3",
    paymentPurpose := some "Оплата по заказу 12345 от клиента",
    linkedOperations := [], metaHref := "href-p1" }

/-- `PaymentType` (hooks/schemas.py). -/
inductive PaymentType
  | incoming_payment
  | incoming_order
  | outgoing_payment
  | outgoing_order
deriving DecidableEq, Repr

/-- `DocumentType` (hooks/schemas.py). -/
inductive DocumentType
  | customerorder
  | invoiceout
  | demand
deriving DecidableEq, Repr

/-- `LinkType` (hooks/schemas.py). -/
inductive LinkType
  | sum_and_counterparty
  | counterparty
  | payment_purpose_mask
deriving DecidableEq, Repr

/-- `PAYMENT_TYPE_TO_ENTITY_TYPE` (hooks/domain/value_objects.py). -/
def paymentTypeToEntityType : PaymentType → String
  | .incoming_payment => "paymentin"
  | .incoming_order => "cashin"
  | .outgoing_payment => "paymentout"
  | .outgoing_order => "cashout"

/-- `WEBHOOK_ACTION` (hooks/domain/value_objects.py). -/
def webhookAction : String := "CREATE"

/-- `WebhookConfiguration` (hooks/domain/value_objects.py). -/
structure WebhookConfiguration where
  paymentType : PaymentType
  entityType : String
  action : String
  url : String
deriving DecidableEq, Repr

/-- `WebhookConfiguration.from_payment_type`. -/
def WebhookConfiguration.fromPaymentType (pt : PaymentType)
    (webhookUrl : String) : WebhookConfiguration :=
  { paymentType := pt, entityType := paymentTypeToEntityType pt,
    action := webhookAction, url := webhookUrl }

/-- A webhook row of the remote MoySklad registry. -/
structure RemoteWebhook where
  id : String
  entityType : String
  action : String
  url : String
  enabled : Bool
deriving DecidableEq, Repr

/-- The remote registry: its rows plus a counter for generated ids. -/
structure Registry where
  rows : List RemoteWebhook
  freshId : Nat
deriving DecidableEq, Repr

/-- The local `WebhookEntity` (hooks/domain/entities.py), restricted to
the fields the toggle flow reads and writes. -/
structure WebhookEntity where
  paymentType : PaymentType
  entityType : String
  action : String
  url : String
  msWebhookId : String
  enabled : Bool
  documentType : DocumentType
  linkType : LinkType
deriving DecidableEq, Repr

/-- A local `WebhookSubscription` row: autoincrement id plus entity. -/
structure DbRow where
  rowId : Nat
  entity : WebhookEntity
deriving DecidableEq, Repr

/-- The local subscription table, rows kept in insertion order. -/
structure LocalDb where
  rows : List DbRow
  nextRowId : Nat
deriving DecidableEq, Repr

/-- `WebhookRepository.get_by_payment_type`: order by id descending,
first — i.e. the most recently inserted row of the payment type. -/
def LocalDb.getByPaymentType (db : LocalDb) (pt : PaymentType) :
    Option WebhookEntity :=
  ((db.rows.filter (fun r => r.entity.paymentType = pt)).getLast?).map
    DbRow.entity

/-- The remote calls the toggle flow can issue. -/
inductive RemoteCall
  | listHooks
  | getById (id : String)
  | createHook (entityType action url : String)
  | updateHook (id : String) (enabled : Bool)
deriving DecidableEq, Repr

/-- Create and update are the remote write calls; list and get-by-id are
read lookups. -/
def RemoteCall.isWrite : RemoteCall → Bool
  | .createHook _ _ _ => true
  | .updateHook _ _ => true
  | _ => false

/-- The local writes `toggle_webhook` can issue. -/
inductive DbWrite
  | addRow (e : WebhookEntity)
  | updateRow (e : WebhookEntity)
deriving DecidableEq, Repr

/-- The entity a local write persists. -/
def DbWrite.entity : DbWrite → WebhookEntity
  | .addRow e => e
  | .updateRow e => e

/-- `MoySkladClient.get_webhook_by_id`: remote lookup by id; a missing
id answers 404 and the client raises `MoySkladAPIError`. -/
def getWebhookById (reg : Registry) (id : String) :
    Except String RemoteWebhook :=
  match reg.rows.find? (fun w => w.id = id) with
  | some w => .ok w
  | none => .error "MoySkladAPIError"

/-- `MoySkladClient.find_webhook` (strict): list all webhooks and return
the first whose entity type, action and url all match. -/
def findWebhook (reg : Registry) (entityType action url : String) :
    Option RemoteWebhook :=
  reg.rows.find? (fun w =>
    w.entityType = entityType && w.action = action && w.url = url)

/-- `MoySkladClient.find_webhook_relaxed`: first webhook matching entity
type and action, ignoring url and enabled. -/
def findWebhookRelaxed (reg : Registry) (entityType action : String) :
    Option RemoteWebhook :=
  reg.rows.find? (fun w => w.entityType = entityType && w.action = action)

/-- `MoySkladClient.create_webhook`.  Modelled from the spec: the remote
registry keeps at most one webhook per (entity type, action) pair,
answers 412 "already exists" otherwise, and creates new webhooks
enabled.  On 412 the client falls back to the relaxed lookup and adopts
whatever it finds (moysklad_client.py lines 228-256), raising only when
even that finds nothing. -/
def createWebhook (reg : Registry) (entityType action url : String) :
    Except String (RemoteWebhook × Registry) :=
  if reg.rows.any (fun w => w.entityType = entityType && w.action = action) then
    match findWebhookRelaxed reg entityType action with
    | some w => .ok (w, reg)
    | none => .error "MoySkladAPIError"
  else
    let w : RemoteWebhook :=
      { id := "wh-" ++ toString reg.freshId, entityType := entityType,
        action := action, url := url, enabled := true }
    .ok (w, { rows := reg.rows ++ [w], freshId := reg.freshId + 1 })

/-- `WebhookOperationResult`, restricted to the fields the claims read. -/
structure OperationResult where
  operation : String
  success : Bool
  webhookEntity : Option WebhookEntity
deriving DecidableEq, Repr

/-- `WebhookOperationResult.is_skipped`:
`self.operation.startswith("skipped_")`, over the character list. -/
def OperationResult.isSkipped (r : OperationResult) : Bool :=
  "skipped_".toList.isPrefixOf r.operation.toList

/-- `EnableWebhookOperation._webhook_data_to_entity`: incoming payment
type, the webhook's own fields, and the schema defaults for the link
settings. -/
def webhookDataToEntity (w : RemoteWebhook) : WebhookEntity :=
  { paymentType := .incoming_payment, entityType := w.entityType,
    action := w.action, url := w.url, msWebhookId := w.id,
    enabled := w.enabled, documentType := .customerorder,
    linkType := .sum_and_counterparty }

instance {ε α : Type} [DecidableEq ε] [DecidableEq α] :
    DecidableEq (Except ε α) := fun x y =>
  match x, y with
  | .ok a, .ok b =>
    if h : a = b then .isTrue (by rw [h])
    else .isFalse (fun hc => h (Except.ok.inj hc))
  | .error a, .error b =>
    if h : a = b then .isTrue (by rw [h])
    else .isFalse (fun hc => h (Except.error.inj hc))
  | .ok _, .error _ => .isFalse (fun hc => Except.noConfusion hc)
  | .error _, .ok _ => .isFalse (fun hc => Except.noConfusion hc)

/-- Outcome of an operation's `execute`: the (possibly raised) result,
the registry afterwards, and the remote calls issued. -/
structure ExecOut where
  result : Except String OperationResult
  registry : Registry
  calls : List RemoteCall
deriving DecidableEq, Repr

/-- `WebhookOperation._get_webhook_from_db_reference`: when the local
record holds a remote id, fetch by id (one read call); a 404 raises;
entity-type or url mismatches only log. -/
def getWebhookFromDbReference (reg : Registry)
    (dbEntity : Option WebhookEntity) :
    Except String (Option RemoteWebhook) × List RemoteCall :=
  match dbEntity with
  | none => (.ok none, [])
  | some e =>
    if e.msWebhookId = "" then (.ok none, [])
    else
      match getWebhookById reg e.msWebhookId with
      | .ok w => (.ok (some w), [.getById e.msWebhookId])
      | .error s => (.error s, [.getById e.msWebhookId])

/-- `EnableWebhookOperation.execute` (webhook_operations.py lines
91-116): db-reference lookup, then the strict remote search, then
create or report already enabled.  The flip-enable branch
(`_enable_existing_webhook`, line 137) calls `update_webhook_enabled`,
a method `MoySkladClient` does not define, so reaching it raises
`AttributeError` before any remote request is made. -/
def enableExecute (reg : Registry) (cfg : WebhookConfiguration)
    (dbEntity : Option WebhookEntity) : ExecOut :=
  match getWebhookFromDbReference reg dbEntity with
  | (.error s, calls) => { result := .error s, registry := reg, calls := calls }
  | (.ok fromDb, calls0) =>
    let step :=
      match fromDb with
      | some w => (some w, calls0)
      | none =>
        (findWebhook reg cfg.entityType cfg.action cfg.url,
         calls0 ++ [RemoteCall.listHooks])
    match step.1 with
    | none =>
      let calls1 := step.2 ++
        [RemoteCall.createHook cfg.entityType cfg.action cfg.url]
      match createWebhook reg cfg.entityType cfg.action cfg.url with
      | .ok (w, reg') =>
        { result := .ok ⟨"created_and_enabled", true,
            some (webhookDataToEntity w)⟩,
          registry := reg', calls := calls1 }
      | .error s => { result := .error s, registry := reg, calls := calls1 }
    | some w =>
      if w.enabled then
        { result := .ok ⟨"already_enabled", true,
            some (webhookDataToEntity w)⟩,
          registry := reg, calls := step.2 }
      else
        { result := .error "AttributeError", registry := reg,
          calls := step.2 }

/-- `DisableWebhookOperation.execute` (webhook_operations.py lines
191-207): same lookup; absent webhook reports `not_found_to_disable`
(success, no entity); an already-disabled webhook is a no-op.  The
flip-disable branch (`_disable_existing_webhook`, line 211) calls the
same nonexistent `update_webhook_enabled`, so reaching it raises
`AttributeError` before any remote request is made. -/
def disableExecute (reg : Registry) (cfg : WebhookConfiguration)
    (dbEntity : Option WebhookEntity) : ExecOut :=
  match getWebhookFromDbReference reg dbEntity with
  | (.error s, calls) => { result := .error s, registry := reg, calls := calls }
  | (.ok fromDb, calls0) =>
    let step :=
      match fromDb with
      | some w => (some w, calls0)
      | none =>
        (findWebhook reg cfg.entityType cfg.action cfg.url,
         calls0 ++ [RemoteCall.listHooks])
    match step.1 with
    | none =>
      { result := .ok ⟨"not_found_to_disable", true, none⟩,
        registry := reg, calls := step.2 }
    | some w =>
      if w.enabled = false then
        { result := .ok ⟨"already_disabled", true,
            some (webhookDataToEntity w)⟩,
          registry := reg, calls := step.2 }
      else
        { result := .error "AttributeError", registry := reg,
          calls := step.2 }

/-- `WebhookRepository.update`: overwrite the row keyed by the remote
webhook id with the entity's fields; `RepositoryError` when no row
matches. -/
def LocalDb.updateByMsId (db : LocalDb) (e : WebhookEntity) :
    Except String LocalDb :=
  if db.rows.any (fun r => r.entity.msWebhookId = e.msWebhookId) then
    .ok { db with rows := db.rows.map (fun r =>
      if r.entity.msWebhookId = e.msWebhookId then { r with entity := e }
      else r) }
  else .error "RepositoryError"

/-- `WebhookRepository.add`: insert a fresh row. -/
def LocalDb.insertRow (db : LocalDb) (e : WebhookEntity) : LocalDb :=
  { rows := db.rows ++ [{ rowId := db.nextRowId, entity := e }],
    nextRowId := db.nextRowId + 1 }

/-- `WebhookRepository.upsert`: update the row with the same remote
webhook id when one exists, otherwise insert. -/
def LocalDb.upsert (db : LocalDb) (e : WebhookEntity) : LocalDb :=
  match db.updateByMsId e with
  | .ok db' => db'
  | .error _ => db.insertRow e

/-- The settings `toggle_webhook` reads: `settings.ms_webhook_url`
(empty string when unset, core/config.py line 14) and whether MoySklad
credentials are configured. -/
structure ToggleSettings where
  msWebhookUrl : String
  hasCredentials : Bool
deriving DecidableEq, Repr

/-- Remote registry plus local subscription table. -/
structure SystemState where
  registry : Registry
  db : LocalDb
deriving DecidableEq, Repr

/-- Outcome of one `toggle_webhook` call. -/
structure ToggleOut where
  result : Except String OperationResult
  state : SystemState
  remoteCalls : List RemoteCall
  dbWrites : List DbWrite
deriving DecidableEq, Repr

/-- `WebhookService.toggle_webhook` (webhook_service.py lines 113-212):
the two skip guards, the operation dispatch, and on success the local
persistence — upsert of the returned entity with the supplied payment
type, document type and link type, or, when the operation returned no
entity, an update of the most recent local record with the supplied
enabled flag and link settings. -/
def toggleWebhook (s : SystemState) (cfg : ToggleSettings)
    (pt : PaymentType) (enabled : Bool) (dt : DocumentType)
    (lt : LinkType) : ToggleOut :=
  if cfg.msWebhookUrl = "" then
    { result := .ok ⟨"skipped_no_webhook_url", false, none⟩,
      state := s, remoteCalls := [], dbWrites := [] }
  else if cfg.hasCredentials = false then
    { result := .ok ⟨"skipped_no_credentials", false, none⟩,
      state := s, remoteCalls := [], dbWrites := [] }
  else
    let config := WebhookConfiguration.fromPaymentType pt cfg.msWebhookUrl
    let existingDb := s.db.getByPaymentType pt
    let ex :=
      if enabled then enableExecute s.registry config existingDb
      else disableExecute s.registry config existingDb
    match ex.result with
    | .error err =>
      { result := .error err, state := { s with registry := ex.registry },
        remoteCalls := ex.calls, dbWrites := [] }
    | .ok r =>
      if r.success then
        match r.webhookEntity with
        | some e0 =>
          let e1 := { e0 with paymentType := pt, documentType := dt, linkType := lt }
          let wasThere := s.db.rows.any (fun row =>
            row.entity.msWebhookId = e1.msWebhookId)
          { result := .ok r,
            state := { registry := ex.registry, db := s.db.upsert e1 },
            remoteCalls := ex.calls,
            dbWrites := [if wasThere then DbWrite.updateRow e1
                         else DbWrite.addRow e1] }
        | none =>
          match s.db.getByPaymentType pt with
          | some e2 =>
            let e1 := { e2 with enabled := enabled, documentType := dt, linkType := lt }
            match s.db.updateByMsId e1 with
            | .ok db' =>
              { result := .ok r,
                state := { registry := ex.registry, db := db' },
                remoteCalls := ex.calls,
                dbWrites := [DbWrite.updateRow e1] }
            | .error err =>
              { result := .error err,
                state := { s with registry := ex.registry },
                remoteCalls := ex.calls, dbWrites := [] }
          | none =>
            { result := .ok r, state := { s with registry := ex.registry },
              remoteCalls := ex.calls, dbWrites := [] }
      else
        { result := .ok r, state := { s with registry := ex.registry },
          remoteCalls := ex.calls, dbWrites := [] }

/-- The empty system: no remote webhooks, no local rows. -/
def emptySystemState : SystemState := ⟨⟨[], 0⟩, ⟨[], 0⟩⟩

/-- Settings with no callback URL configured. -/
def noUrlSettings : ToggleSettings := ⟨"", true⟩

/-- Settings with a callback URL and credentials configured. -/
def demoSettings : ToggleSettings := ⟨"https://cb.example/hook", true⟩

/-- The write issued by an enable from the empty system with non-default
link settings. -/
def demoWrite : DbWrite :=
  DbWrite.addRow ⟨PaymentType.incoming_payment, "paymentin", "CREATE",
    "https://cb.example/hook", "wh-0", true, DocumentType.invoiceout,
    LinkType.counterparty⟩

/-- The local record saved by the first enable from the empty system. -/
def savedEntity : WebhookEntity :=
  ⟨PaymentType.incoming_payment, "paymentin", "CREATE",
    "https://cb.example/hook", "wh-0", true, DocumentType.customerorder,
    LinkType.sum_and_counterparty⟩

/-- The remote webhook created by the first enable from the empty
system. -/
def createdRemote : RemoteWebhook :=
  ⟨"wh-0", "paymentin", "CREATE", "https://cb.example/hook", true⟩

/-- The system state after the first enable from the empty system. -/
def enabledState : SystemState :=
  (toggleWebhook emptySystemState demoSettings PaymentType.incoming_payment
    true DocumentType.customerorder LinkType.sum_and_counterparty).state

/-- A registry already holding a disabled paymentin/CREATE webhook that
points at a different URL, with an empty local table. -/
def conflictState : SystemState :=
  ⟨⟨[⟨"w1", "paymentin", "CREATE", "https://other.example/hook", false⟩], 0⟩,
   ⟨[], 0⟩⟩

/-- The first enable against the conflicting registry. -/
def firstEnable : ToggleOut :=
  toggleWebhook conflictState demoSettings PaymentType.incoming_payment
    true DocumentType.customerorder LinkType.sum_and_counterparty

/-- The second enable, in a row, with no remote-side change between. -/
def secondEnable : ToggleOut :=
  toggleWebhook firstEnable.state demoSettings PaymentType.incoming_payment
    true DocumentType.customerorder LinkType.sum_and_counterparty

lemma allocateLoop_nonpos {r : ℚ} (hr : r ≤ 0) :
    ∀ ds : List OrderDoc, allocateLoop r ds = ([], r) := by
  intro ds
  induction ds with
  | nil => rfl
  | cons d ds ih =>
    by_cases h : d.getUnpaidAmount ≤ 0
    · simp [allocateLoop, h, ih]
    · have hmin : min d.getUnpaidAmount r ≤ 0 := le_trans (min_le_right _ _) hr
      simp [allocateLoop, h, hmin]

lemma allocateLoop_invariant (ds : List OrderDoc) :
    ∀ r : ℚ, 0 ≤ r →
      appliedSum (allocateLoop r ds).1 + (allocateLoop r ds).2 = r ∧
      0 ≤ (allocateLoop r ds).2 ∧
      ∀ p ∈ (allocateLoop r ds).1, p.2 ≤ p.1.getUnpaidAmount := by
  induction ds with
  | nil =>
    intro r hr
    refine ⟨by simp [allocateLoop, appliedSum], by simpa [allocateLoop], ?_⟩
    intro p hp
    simp [allocateLoop] at hp
  | cons d ds ih =>
    intro r hr
    by_cases h : d.getUnpaidAmount ≤ 0
    · simpa [allocateLoop, h] using ih r hr
    · push_neg at h
      set linked := min d.getUnpaidAmount r with hlinked
      by_cases h2 : linked ≤ 0
      · refine ⟨?_, ?_, ?_⟩
        · simp [allocateLoop, not_le.2 h, h2, appliedSum]
        · simpa [allocateLoop, not_le.2 h, h2] using hr
        · intro p hp
          simp [allocateLoop, not_le.2 h, h2] at hp
      · push_neg at h2
        have hlr : linked ≤ r := min_le_right _ _
        by_cases h3 : r - linked ≤ 0
        · have hrl : r - linked = 0 := le_antisymm h3 (by linarith)
          refine ⟨?_, ?_, ?_⟩
          · simp [allocateLoop, not_le.2 h, not_le.2 h2, h3, appliedSum]
          · simp [allocateLoop, not_le.2 h, not_le.2 h2, h3, hrl]
          · intro p hp
            simp [allocateLoop, not_le.2 h, not_le.2 h2, h3] at hp
            subst hp
            exact min_le_left _ _
        · push_neg at h3
          obtain ⟨ih1, ih2, ih3⟩ := ih (r - linked) (by linarith)
          refine ⟨?_, ?_, ?_⟩
          · simp only [allocateLoop, not_le.2 h, if_false, not_le.2 h2,
              not_le.2 h3, appliedSum, List.map_cons, List.sum_cons] at *
            linarith [ih1]
          · simpa [allocateLoop, not_le.2 h, not_le.2 h2, not_le.2 h3] using ih2
          · intro p hp
            simp only [allocateLoop, not_le.2 h, if_false, not_le.2 h2,
              not_le.2 h3, List.mem_cons] at hp
            rcases hp with hp | hp
            · subst hp
              exact min_le_left _ _
            · exact ih3 p hp

lemma allocSpecC2_nonpos {r : ℚ} (hr : r ≤ 0) :
    ∀ ds : List OrderDoc, allocSpecC2 ds r = ([], r) := by
  intro ds
  cases ds with
  | nil => rfl
  | cons d ds => simp [allocSpecC2, hr]

/-- C1: for every payment amount and candidate list, the multi-document
allocation of `_link_payment_by_counterparty` satisfies: the amounts
applied plus the remaining unapplied amount equal the payment's amount,
the amounts applied total at most the payment's amount, and each applied
amount is at most the document's outstanding amount at selection time. -/
theorem counterparty_allocation_invariants (paymentSum : ℚ)
    (documents : List OrderDoc) (h : 0 ≤ paymentSum) :
    appliedSum (allocateLoop paymentSum documents).1 +
        (allocateLoop paymentSum documents).2 = paymentSum ∧
    appliedSum (allocateLoop paymentSum documents).1 ≤ paymentSum ∧
    ∀ p ∈ (allocateLoop paymentSum documents).1,
      p.2 ≤ p.1.getUnpaidAmount := by
  obtain ⟨h1, h2, h3⟩ := allocateLoop_invariant documents paymentSum h
  exact ⟨h1, by linarith, h3⟩

/-- Witness for C1 at Scenario B: payment 700 across O1 and O2. -/
theorem counterparty_allocation_invariants_witness :
    appliedSum (allocateLoop 700 [docO1, docO2]).1 +
        (allocateLoop 700 [docO1, docO2]).2 = 700 ∧
    appliedSum (allocateLoop 700 [docO1, docO2]).1 ≤ 700 ∧
    ∀ p ∈ (allocateLoop 700 [docO1, docO2]).1,
      p.2 ≤ p.1.getUnpaidAmount :=
  counterparty_allocation_invariants 700 [docO1, docO2] (by norm_num)

/-- C2 counterexample: the allocation loop does not apply the 0.01
matching tolerance to near-zero remainders.  With payment amount
100.005 and two open documents (outstanding 100 and 50), after the first
link the remaining amount 0.005 lies within the tolerance of zero, yet
the loop records a further 0.005 link against the second document
instead of treating the payment as fully consumed. -/
theorem allocation_tolerance_counterexample :
    allocateLoop (100 + 1/200) [docT1, docT2] =
      ([(docT1, 100), (docT2, 1/200)], 0) ∧
    (1/200 : ℚ) ≤ 1/100 := by
  constructor
  · norm_num [allocateLoop, docT1, docT2, OrderDoc.getUnpaidAmount,
      min_def, max_def]
  · norm_num

/-- C2 amended: for every payment amount and ordered candidate list the
loop of `_link_payment_by_counterparty` walks the candidates in strategy
order, computes `want = min(outstanding, remaining)`, skips a candidate
with `want <= 0` without consuming a slot, otherwise records
`(candidate, want)` and subtracts it, and stops once the remaining
amount is `<= 0` — all comparisons against zero are exact; no tolerance
is applied to remainders. -/
theorem allocation_walk_matches_exact_spec (documents : List OrderDoc)
    (remaining : ℚ) :
    allocateLoop remaining documents = allocSpecC2 documents remaining := by
  induction documents generalizing remaining with
  | nil => rfl
  | cons d ds ih =>
    by_cases hr : remaining ≤ 0
    · rw [allocateLoop_nonpos hr, allocSpecC2]
      simp [hr]
    · push_neg at hr
      by_cases h : d.getUnpaidAmount ≤ 0
      · have hw : min d.getUnpaidAmount remaining ≤ 0 :=
          le_trans (min_le_left _ _) h
        simp [allocateLoop, h, allocSpecC2, not_le.2 hr, hw, ih]
      · push_neg at h
        have hw : ¬ min d.getUnpaidAmount remaining ≤ 0 :=
          not_le.2 (lt_min h hr)
        by_cases h3 : remaining - min d.getUnpaidAmount remaining ≤ 0
        · rw [allocSpecC2]
          simp only [not_le.2 hr, if_false, hw,
            allocSpecC2_nonpos h3]
          simp [allocateLoop, not_le.2 h, hw, h3]
        · rw [allocSpecC2]
          simp only [not_le.2 hr, if_false, hw, ← ih]
          simp [allocateLoop, not_le.2 h, hw, h3]

/-- C3: the `sum_and_counterparty` strategy for customer orders crashes —
`CustomerOrderService.find_for_payment` passes `prioritize_oldest` as a
keyword to `CustomerOrderClient.search_by_agent_and_sum`, whose signature
has no such parameter, so the call raises `TypeError` instead of
returning the tolerance-filtered, date-descending, settled-excluded
candidate list the claim (and the matching invoice-client code)
describes. -/
theorem sum_and_counterparty_call_binding_fails :
    bindsOk customerOrderSearchByAgentAndSumSig 0
      findForPaymentBySumCallKwargs = false := by
  decide

/-- C10: the counterparty-policy candidate query for customer orders
crashes — `find_for_payment` passes `date_from` (60-day floor), `limit`
(10) and `order` to `CustomerOrderClient.search_by_agent`, whose
signature accepts only `agent_id` and `only_unpaid`, so the call raises
`TypeError` instead of performing the restricted query the claim
describes. -/
theorem counterparty_query_call_binding_fails :
    bindsOk customerOrderSearchByAgentSig 0
      findForPaymentByAgentCallKwargs = false := by
  decide

/-- C5: the webhook endpoint cannot reach its no-content response —
`receive_moysklad_webhook` (hooks/api.py line 111) constructs
`WebhookHandler` with two positional arguments while `__init__` requires
four, so every delivery that passes the request-id check raises
`TypeError` (a 500 response) before any event is processed. -/
theorem webhook_endpoint_handler_construction_fails :
    bindsOk webhookHandlerInitSig 2 [] = false := by
  decide

/-- C8: `link_to_document` appends exactly one allocation to the
payment's existing link list: the written list is one longer, starts
with the previously existing links unchanged, and ends with the new
document reference and amount. -/
theorem apply_link_appends_one_preserving_existing (payment : PaymentIn)
    (documentMetaHref : String) (linkedSum : ℚ) :
    (linkToDocumentOps payment documentMetaHref linkedSum).length =
        payment.linkedOperations.length + 1 ∧
    (linkToDocumentOps payment documentMetaHref linkedSum).take
        payment.linkedOperations.length = payment.linkedOperations ∧
    (linkToDocumentOps payment documentMetaHref linkedSum).getLast? =
        some { metaHref := documentMetaHref,
               metaType := extractTypeFromHref documentMetaHref,
               linkedSum := linkedSum } := by
  have hmap : payment.linkedOperations.map (fun op =>
      ({ metaHref := op.metaHref, metaType := op.metaType,
         linkedSum := op.linkedSum } : LinkedOp)) =
      payment.linkedOperations := by
    simp [List.map_id']
  refine ⟨?_, ?_, ?_⟩
  · simp [linkToDocumentOps, hmap]
  · simp only [linkToDocumentOps, hmap]
    exact List.take_left _ _
  · simp [linkToDocumentOps, hmap]

lemma extractOrderNumber_eq (purpose : String) :
    extractOrderNumber purpose =
      (match searchPurposeKey purpose.toList with
       | some ds => some (String.mk ds)
       | none =>
         (searchBareDigits purpose.toList).map (fun ds => String.mk ds)) := by
  cases h : searchPurposeKey purpose.toList with
  | none =>
    have h' : searchPurposeKey purpose.data = none := h
    simp only [extractOrderNumber, purposeMatchers, List.findSome?, h, h']
    cases h2 : searchBareDigits purpose.data <;> simp [h2]
  | some d =>
    have h' : searchPurposeKey purpose.data = some d := h
    simp [extractOrderNumber, purposeMatchers, List.findSome?, h, h']

/-- C4: the `purpose_mask` strategy applies the ordered pattern list to
the payment's purpose with first-match-wins semantics (the
order/№/заказ pattern before the bare 5+-digit run), and yields exactly
one candidate — the document whose display name equals the extracted
number for the payment's counterparty — or none, never multiple. -/
theorem purpose_mask_single_candidate (db : List OrderDoc)
    (p : PaymentIn) :
    (p.paymentPurpose = none → findOrderByPurposeMask db p = none) ∧
    (∀ purpose ds, searchPurposeKey purpose.toList = some ds →
        extractOrderNumber purpose = some (String.mk ds)) ∧
    (∀ purpose, searchPurposeKey purpose.toList = none →
        extractOrderNumber purpose =
          (searchBareDigits purpose.toList).map (fun ds => String.mk ds)) ∧
    (∀ purpose, p.paymentPurpose = some purpose →
        extractOrderNumber purpose = none →
        findOrderByPurposeMask db p = none) ∧
    (∀ o, findOrderByPurposeMask db p = some o →
        o.agentId = p.agentId ∧
        ∃ purpose n, p.paymentPurpose = some purpose ∧
          extractOrderNumber purpose = some n ∧ o.name = n) ∧
    (∀ n, ((db.filter (fun o =>
        o.agentId = p.agentId && o.name = n)).take 1).length ≤ 1) := by
  refine ⟨?_, ?_, ?_, ?_, ?_, ?_⟩
  · intro h
    simp [findOrderByPurposeMask, h]
  · intro purpose ds h
    rw [extractOrderNumber_eq, h]
  · intro purpose h
    rw [extractOrderNumber_eq, h]
  · intro purpose hp hex
    by_cases hemp : purpose = "" <;>
      simp [findOrderByPurposeMask, hp, hemp, hex]
  · intro o hres
    cases hp : p.paymentPurpose with
    | none => simp [findOrderByPurposeMask, hp] at hres
    | some purpose =>
      by_cases hemp : purpose = ""
      · simp [findOrderByPurposeMask, hp, hemp] at hres
      · cases hex : extractOrderNumber purpose with
        | none => simp [findOrderByPurposeMask, hp, hemp, hex] at hres
        | some n =>
          have hres' : findByNameAndAgent db n p.agentId = some o := by
            simpa [findOrderByPurposeMask, hp, hemp, hex] using hres
          unfold findByNameAndAgent at hres'
          cases hf : db.filter (fun o =>
              o.agentId = p.agentId && o.name = n) with
          | nil => rw [hf] at hres'; simp at hres'
          | cons a rest =>
            rw [hf] at hres'
            have hoa : o = a := by simpa using hres'.symm
            have ha : a ∈ db.filter (fun o =>
                o.agentId = p.agentId && o.name = n) := by
              rw [hf]; exact List.mem_cons_self a rest
            have hpred := (List.mem_filter.1 ha).2
            simp only [Bool.and_eq_true, decide_eq_true_eq] at hpred
            exact ⟨hoa ▸ hpred.1, purpose, n, rfl, hex, hoa ▸ hpred.2⟩
  · intro n
    calc ((db.filter (fun o =>
          o.agentId = p.agentId && o.name = n)).take 1).length
        ≤ 1 := by simp [List.length_take]

/-- Witness for C4 at Scenario C: the purpose text yields exactly the
order named 12345 of counterparty C3. -/
theorem purpose_mask_single_candidate_witness :
    orderSc.agentId = paymentSc.agentId ∧
    findOrderByPurposeMask [orderSc] paymentSc = some orderSc := by
  have hres : findOrderByPurposeMask [orderSc] paymentSc = some orderSc := by
    decide
  exact ⟨((purpose_mask_single_candidate [orderSc] paymentSc).2.2.2.2.1
    orderSc hres).1, hres⟩

/-- C7: a toggle (enable or disable) invoked while no public callback
URL is configured returns the skipped outcome `skipped_no_webhook_url`
— recognised as skipped, not as an error outcome, by the caller's
`is_skipped` check — and makes zero remote calls, zero local writes and
no state change. -/
theorem toggle_without_callback_url_skipped (s : SystemState)
    (cfg : ToggleSettings) (pt : PaymentType) (enabled : Bool)
    (dt : DocumentType) (lt : LinkType) (h : cfg.msWebhookUrl = "") :
    (toggleWebhook s cfg pt enabled dt lt).result =
        .ok ⟨"skipped_no_webhook_url", false, none⟩ ∧
    OperationResult.isSkipped ⟨"skipped_no_webhook_url", false, none⟩ = true ∧
    (toggleWebhook s cfg pt enabled dt lt).remoteCalls = [] ∧
    (toggleWebhook s cfg pt enabled dt lt).dbWrites = [] ∧
    (toggleWebhook s cfg pt enabled dt lt).state = s := by
  refine ⟨?_, by decide, ?_, ?_, ?_⟩ <;> simp [toggleWebhook, h]

/-- Witness for C7: toggling on the empty system with an unset URL. -/
theorem toggle_without_callback_url_skipped_witness :
    (toggleWebhook emptySystemState noUrlSettings PaymentType.incoming_payment
        true DocumentType.customerorder LinkType.sum_and_counterparty).result =
        .ok ⟨"skipped_no_webhook_url", false, none⟩ ∧
    OperationResult.isSkipped ⟨"skipped_no_webhook_url", false, none⟩ = true ∧
    (toggleWebhook emptySystemState noUrlSettings PaymentType.incoming_payment
        true DocumentType.customerorder LinkType.sum_and_counterparty).remoteCalls = [] ∧
    (toggleWebhook emptySystemState noUrlSettings PaymentType.incoming_payment
        true DocumentType.customerorder LinkType.sum_and_counterparty).dbWrites = [] ∧
    (toggleWebhook emptySystemState noUrlSettings PaymentType.incoming_payment
        true DocumentType.customerorder LinkType.sum_and_counterparty).state =
        emptySystemState :=
  toggle_without_callback_url_skipped emptySystemState noUrlSettings
    PaymentType.incoming_payment true DocumentType.customerorder
    LinkType.sum_and_counterparty rfl

/-- C9: every local write a toggle issues persists exactly the document
type and link type supplied to that call (the values default to
`customerorder` and `sum_and_counterparty` in `AutoLinkTogglePayload`
and in the `toggle_webhook` signature), whatever link settings the
row stored before. -/
theorem toggle_overwrites_link_settings (s : SystemState)
    (cfg : ToggleSettings) (pt : PaymentType) (enabled : Bool)
    (dt : DocumentType) (lt : LinkType) :
    ∀ w ∈ (toggleWebhook s cfg pt enabled dt lt).dbWrites,
      w.entity.documentType = dt ∧ w.entity.linkType = lt := by
  intro w hw
  simp only [toggleWebhook] at hw
  repeat' split at hw
  all_goals simp_all [DbWrite.entity]

/-- Witness for C9: the persisted row of a concrete enable call carries
the supplied non-default settings. -/
theorem toggle_overwrites_link_settings_witness :
    demoWrite.entity.documentType = DocumentType.invoiceout ∧
    demoWrite.entity.linkType = LinkType.counterparty :=
  toggle_overwrites_link_settings emptySystemState demoSettings
    PaymentType.incoming_payment true DocumentType.invoiceout
    LinkType.counterparty demoWrite (by decide)

/-- C6 amended: after a successful enable whose saved local record
references a remote webhook that is enabled — every success path except
the create-conflict fallback adopting a disabled webhook — enabling
again with no remote-side change yields `already_enabled` and issues
only the read lookup by the stored id: no create and no update.  (In
the excepted case the second call instead raises `AttributeError`, the
flip-enable branch calling the nonexistent
`MoySkladClient.update_webhook_enabled`, still with no write call.) -/
theorem enable_again_already_enabled (s : SystemState)
    (cfg : ToggleSettings) (pt : PaymentType) (dt : DocumentType)
    (lt : LinkType) (e : WebhookEntity) (w : RemoteWebhook)
    (hurl : cfg.msWebhookUrl ≠ "") (hcred : cfg.hasCredentials = true)
    (hdb : s.db.getByPaymentType pt = some e) (hid : e.msWebhookId ≠ "")
    (hw : s.registry.rows.find? (fun r => r.id = e.msWebhookId) = some w)
    (hen : w.enabled = true) :
    (toggleWebhook s cfg pt true dt lt).result =
        .ok ⟨"already_enabled", true, some (webhookDataToEntity w)⟩ ∧
    (toggleWebhook s cfg pt true dt lt).remoteCalls =
        [RemoteCall.getById e.msWebhookId] ∧
    (toggleWebhook s cfg pt true dt lt).remoteCalls.all
        (fun c => !c.isWrite) = true ∧
    (toggleWebhook s cfg pt true dt lt).state.registry = s.registry := by
  refine ⟨?_, ?_, ?_, ?_⟩ <;>
    simp [toggleWebhook, enableExecute, getWebhookFromDbReference,
      getWebhookById, hurl, hcred, hdb, hid, hw, hen, RemoteCall.isWrite]

/-- Witness for C6: the literal second enable in a row after a fresh
first enable yields `already_enabled` with only the read lookup. -/
theorem enable_again_already_enabled_witness :
    (toggleWebhook enabledState demoSettings PaymentType.incoming_payment
        true DocumentType.customerorder LinkType.sum_and_counterparty).result =
        .ok ⟨"already_enabled", true, some (webhookDataToEntity createdRemote)⟩ ∧
    (toggleWebhook enabledState demoSettings PaymentType.incoming_payment
        true DocumentType.customerorder LinkType.sum_and_counterparty).remoteCalls =
        [RemoteCall.getById savedEntity.msWebhookId] ∧
    (toggleWebhook enabledState demoSettings PaymentType.incoming_payment
        true DocumentType.customerorder LinkType.sum_and_counterparty).remoteCalls.all
        (fun c => !c.isWrite) = true ∧
    (toggleWebhook enabledState demoSettings PaymentType.incoming_payment
        true DocumentType.customerorder LinkType.sum_and_counterparty).state.registry =
        enabledState.registry :=
  enable_again_already_enabled enabledState demoSettings
    PaymentType.incoming_payment DocumentType.customerorder
    LinkType.sum_and_counterparty savedEntity createdRemote (by decide) rfl
    (by decide) (by decide) (by decide) rfl

/-- C6 counterexample: when the remote registry already holds a disabled
webhook for the same entity type and action at another URL, the first
enable succeeds by adopting it through the create-conflict fallback
(operation `created_and_enabled`), and the second enable — with no
remote-side change in between — does not yield `already_enabled`: after
the single read lookup it reaches the flip-enable branch, whose call to
the nonexistent `MoySkladClient.update_webhook_enabled` raises
`AttributeError`. -/
theorem enable_twice_counterexample :
    firstEnable.result = .ok ⟨"created_and_enabled", true,
      some (webhookDataToEntity
        ⟨"w1", "paymentin", "CREATE", "https://other.example/hook", false⟩)⟩ ∧
    secondEnable.result = .error "AttributeError" ∧
    secondEnable.remoteCalls = [RemoteCall.getById "w1"] := by
  refine ⟨by decide, by decide, by decide⟩

end APL
